import Mathlib

/-!
Shallow embedding of the batch scheduler in `openaiexpress/run.py` together
with the rate-limit table in `fastopenai/constant_limits.py`.

A chat request is a list of messages; each message is a dict of string keys
and string values, modelled as an association list in insertion order (Python
dict iteration order).  The external tokenizer (`tiktoken`'s `encoding`) is
modelled as an abstract function `Enc` from strings to token counts.
-/

/-- A single chat message: the key/value pairs of the Python dict, in
insertion order. -/
abbrev Message := List (String × String)

/-- A request, as consumed by `count_tokens` and `make_batches`: a list of
messages. -/
abbrev Request := List Message

/-- The external tokenizer collaborator: `len(encoding.encode(value))`. -/
abbrev Enc := String → Nat

/-- The Python exception classes the embedded code can raise. -/
inductive PyErr where
  | notImplementedError
  | valueError
  | typeError
  | attributeError
deriving DecidableEq, Repr

/-! ## Cost Estimator: `count_tokens` (run.py lines 23-57) -/

/-- The six model names enumerated in the first membership test of
`count_tokens`. -/
def knownModels : List String :=
  ["gpt-3.5-turbo-0613", "gpt-3.5-turbo-16k-0613", "gpt-4-0314",
   "gpt-4-32k-0314", "gpt-4-0613", "gpt-4-32k-0613"]

/-- Token count of one message: `tokens_per_message` plus, for every
key/value pair, the encoded length of the value, plus `tokens_per_name`
when the key is `"name"`. -/
def messageTokens (enc : Enc) (tpm tpn : Int) (message : Message) : Int :=
  message.foldl (fun acc kv =>
    acc + (enc kv.2 : Int) + (if kv.1 = "name" then tpn else 0)) tpm

/-- The accumulation loop of `count_tokens`: sum over messages, plus the
final 3 tokens priming the reply. -/
def numTokensFrom (enc : Enc) (tpm tpn : Int) (messages : Request) : Int :=
  messages.foldl (fun acc msg => acc + messageTokens enc tpm tpn msg) 0 + 3

/-- True when `pat` is an initial segment of `s` (character lists). -/
def leadsWith : List Char → List Char → Bool
  | [], _ => true
  | _ :: _, [] => false
  | a :: as, b :: bs => a == b && leadsWith as bs

/-- True when `pat` occurs contiguously inside `s` (character lists). -/
def hasSub (pat : List Char) : List Char → Bool
  | [] => pat.isEmpty
  | c :: rest => leadsWith pat (c :: rest) || hasSub pat rest

/-- Python's `pat in s` substring test. -/
def strContains (s pat : String) : Bool := hasSub pat.data s.data

/-- The non-recursive part of `count_tokens`: the enumerated models and the
`gpt-3.5-turbo-0301` special case; anything else raises
`NotImplementedError`.  The recursive aliasing calls of `count_tokens`
target only models in this part. -/
def count_tokens_known (enc : Enc) (messages : Request) (model : String) :
    Except PyErr Int :=
  if model ∈ knownModels then .ok (numTokensFrom enc 3 1 messages)
  else if model = "gpt-3.5-turbo-0301" then .ok (numTokensFrom enc 4 (-1) messages)
  else .error .notImplementedError

/-- `count_tokens(messages, model)` from run.py.  The two aliasing branches
recurse with a dated snapshot name, which lands in the enumerated set, so
the recursion is unrolled into `count_tokens_known`. -/
def count_tokens (enc : Enc) (messages : Request) (model : String) :
    Except PyErr Int :=
  if model ∈ knownModels then .ok (numTokensFrom enc 3 1 messages)
  else if model = "gpt-3.5-turbo-0301" then .ok (numTokensFrom enc 4 (-1) messages)
  else if strContains model "gpt-3.5-turbo" then
    count_tokens_known enc messages "gpt-3.5-turbo-0613"
  else if strContains model "gpt-4" then
    count_tokens_known enc messages "gpt-4-0613"
  else .error .notImplementedError

/-- The cost `make_batches` assigns a request: `count_tokens(message)` with
the default model `"gpt-3.5-turbo-0613"`, whose branch uses
`tokens_per_message = 3`, `tokens_per_name = 1`. -/
def defaultCost (enc : Enc) (messages : Request) : Int :=
  numTokensFrom enc 3 1 messages

/-! ## Batch Planner: `make_batches` (run.py lines 61-83) -/

/-- The loop state of `make_batches`: the closed batches, the batch under
construction, and its accumulated token count.  A batch entry is `none` for
the skip marker appended for an oversized request, `some r` otherwise. -/
structure BState where
  batches : List (List (Option Request))
  current : List (Option Request)
  tokens : Int
deriving Repr

/-- One iteration of the `for message in messages` loop of `make_batches`.
Note the source has no `continue` after appending the skip marker, so an
oversized request both contributes a `none` and then falls through to the
limit check and is appended itself. -/
def make_batches_step (enc : Enc) (rpm tpm ctx : Int) (st : BState)
    (message : Request) : BState :=
  let pt := defaultCost enc message
  let cur1 := if pt > ctx then st.current ++ [none] else st.current
  if (cur1.length : Int) ≥ rpm ∨ st.tokens + pt > tpm then
    { batches := st.batches ++ [cur1], current := [some message], tokens := pt }
  else
    { batches := st.batches, current := cur1 ++ [some message],
      tokens := st.tokens + pt }

/-- The flush after the loop of `make_batches` (run.py lines 80-81): the
current batch is appended when non-empty. -/
def finishBatches (st : BState) : List (List (Option Request)) :=
  if st.current ≠ [] then st.batches ++ [st.current] else st.batches

/-- `make_batches(messages, rpm_limit, tpm_limit, context_len)` from run.py. -/
def make_batches (enc : Enc) (messages : List Request) (rpm tpm ctx : Int) :
    List (List (Option Request)) :=
  finishBatches (messages.foldl (make_batches_step enc rpm tpm ctx)
    { batches := [], current := [], tokens := 0 })

/-- Sum of the estimated costs of the real (non-`none`) members of a batch. -/
def batchTokens (enc : Enc) (b : List (Option Request)) : Int :=
  ((b.filterMap id).map (defaultCost enc)).sum

/-- Total number of plan entries (skip markers included) recorded in a loop
state: the entries of the closed batches plus the batch under construction. -/
def stateLen (st : BState) : Nat :=
  (st.batches.map List.length).sum + st.current.length

/-- The real requests recorded in a loop state, in order. -/
def statePlaced (st : BState) : List Request :=
  st.batches.flatten.filterMap id ++ st.current.filterMap id

/-- A batch within the limits: its member count is at most `rpm` and its
token sum at most `tpm`, the latter unless it is a singleton. -/
def goodBatch (enc : Enc) (rpm tpm : Int) (b : List (Option Request)) : Prop :=
  (b.length : Int) ≤ rpm ∧ (batchTokens enc b ≤ tpm ∨ b.length = 1)

/-- The loop invariant of `make_batches` on inputs with no oversized
request: closed batches are within the limits, the current batch has room
below `rpm`, and `tokens` tracks the current batch's token sum, which is
within `tpm` unless the batch holds at most one entry. -/
structure BInv (enc : Enc) (rpm tpm : Int) (st : BState) : Prop where
  closed : ∀ b ∈ st.batches, goodBatch enc rpm tpm b
  curLen : (st.current.length : Int) ≤ rpm
  curTok : st.tokens = batchTokens enc st.current
  curOk : st.tokens ≤ tpm ∨ st.current.length ≤ 1

/-! Concrete data used by witnesses and counterexamples. -/

/-- A concrete tokenizer: one token per character. -/
def enc0 : Enc := fun s => s.length

/-- A one-message request whose sole value is `s`; its `defaultCost` under
`enc0` is `s.length + 6`. -/
def req (s : String) : Request := [[("content", s)]]

/-- Cost 10 under `enc0`. -/
def rA : Request := req "abcd"

/-- Cost 11 under `enc0`. -/
def rB : Request := req "abcde"

/-- Cost 40 under `enc0`: oversized for a context length of 30. -/
def rOver : Request := req "0123456789012345678901234567890123"

/-- Cost 36 under `enc0`. -/
def rMid : Request := req "012345678901234567890123456789"

/-! ## Dispatch Engine and Result Aggregator (run.py lines 87-180) -/

/-- `process_batch` (run.py lines 87-104): for every entry of the batch,
`send_request` returns `None` for a skip marker and the remote response
otherwise; `asyncio.gather` preserves the order of the entries.  We model
the ordered response list it puts on the result queue, with the remote
collaborator `invoke` as a parameter. -/
def process_batch {ρ : Type} (invoke : Request → ρ)
    (messages : List (Option Request)) : List (Option ρ) :=
  messages.map (fun m => m.map invoke)

/-- The requests a batch actually hands to the remote collaborator inside
`process_batch`: every non-`none` entry, in order. -/
def process_batch_invocations (messages : List (Option Request)) :
    List Request :=
  messages.filterMap id

/-- All requests the worker-pool run hands to the remote collaborator,
batch by batch. -/
def plan_invocations (batches : List (List (Option Request))) : List Request :=
  (batches.map process_batch_invocations).flatten

/-- `distribute_batches` (run.py lines 147-180): the supervisor enqueues the
batches in order, workers push each batch's ordered response list to the
shared result queue, and the supervisor drains one queue element per batch
and concatenates them in arrival order (`results = [result_queue.get() for _
in batches]` carries no batch index).  Queue delivery is modelled by
`arrival`: the i-th `get()` returns the responses of batch `arrival[i]`. -/
def distribute_batches {ρ : Type} (invoke : Request → ρ)
    (batches : List (List (Option Request))) (arrival : List Nat) :
    List (Option ρ) :=
  (arrival.map (fun i => process_batch invoke (batches.getD i []))).flatten

/-- `process_prompts_with_rate_limiting` (run.py lines 130-144).  The loop
body evaluates `await process_batch(batch, model, **kwargs)`, but
`process_batch` requires a third positional argument `result_queue`, so the
first iteration raises `TypeError` before any request is sent (and even
with a `result_queue` smuggled through kwargs, `process_batch` returns
`None` and `all_responses.extend(None)` raises `TypeError`).  With no
batches the loop body never runs and the empty list is returned. -/
def process_prompts_with_rate_limiting (ρ : Type) (enc : Enc)
    (messages : List Request) (rpm tpm ctx : Int) :
    Except PyErr (List (Option ρ)) :=
  match make_batches enc messages rpm tpm ctx with
  | [] => .ok []
  | _ :: _ => .error .typeError

/-! ## Limit table (fastopenai/constant_limits.py) -/

/-- `RateLimit(rpm=..., rpd=..., tpm=...)`. -/
structure RateLimit where
  rpm : Int
  rpd : Int
  tpm : Int
deriving DecidableEq, Repr

/-- Modelled from the spec: `fastopenai/schema/rate.py` (the `ModelLimit`
class) is not in the sources; per the spec the limit table maps a model
name to per-tier limits `{rpm, tpm, rpd}` plus a per-model `context_len`,
and tier lookup is by attribute name (`getattr(model_limit, tier)`). -/
structure ModelLimit where
  model_name : String
  tiers : String → Option RateLimit
  context_len : Int

/-- Modelled from the spec: the six successive usage-tier attribute names a
`ModelLimit` built from six `RateLimit`s exposes (the test exercises
`"tier_4"`; the spec says `-1` occurs at the lowest tier). -/
def tierNames : List String :=
  ["free", "tier_1", "tier_2", "tier_3", "tier_4", "tier_5"]

/-- Modelled from the spec: `ModelLimit.from_rate_limits(name, limits)`
attaches the given per-tier limits to the model name; the model's context
length comes from the schema module, abstracted here as `ctx`. -/
def ModelLimit.from_rate_limits (name : String) (limits : List RateLimit)
    (ctx : Int) : ModelLimit :=
  { model_name := name,
    tiers := fun t => (tierNames.zip limits).lookup t,
    context_len := ctx }

/-- `gpt_3_5_limits` from constant_limits.py. -/
def gpt_3_5_limits : List RateLimit :=
  [⟨3, 200, 40000⟩, ⟨3500, 10000, 60000⟩, ⟨3500, 0, 80000⟩,
   ⟨3500, 0, 160000⟩, ⟨10000, 0, 1000000⟩, ⟨10000, 0, 2000000⟩]

/-- `gpt_4_limits` from constant_limits.py; the lowest tier is the
"unlimited" marker `-1`. -/
def gpt_4_limits : List RateLimit :=
  [⟨-1, -1, -1⟩, ⟨500, 10000, 10000⟩, ⟨5000, 0, 40000⟩,
   ⟨5000, 0, 80000⟩, ⟨10000, 0, 300000⟩, ⟨10000, 0, 300000⟩]

/-- `gpt_4_turbo_limits` from constant_limits.py. -/
def gpt_4_turbo_limits : List RateLimit :=
  [⟨-1, -1, -1⟩, ⟨500, 0, 300000⟩, ⟨5000, 0, 450000⟩,
   ⟨5000, 0, 600000⟩, ⟨10000, 0, 800000⟩, ⟨10000, 0, 1500000⟩]

/-- `MODEL_LIMITS` from constant_limits.py; `ctxOf` abstracts the per-model
context length the missing schema module supplies. -/
def MODEL_LIMITS (ctxOf : String → Int) : List ModelLimit :=
  [ModelLimit.from_rate_limits "gpt-3.5-turbo" gpt_3_5_limits (ctxOf "gpt-3.5-turbo"),
   ModelLimit.from_rate_limits "gpt-3.5-turbo-0125" gpt_3_5_limits (ctxOf "gpt-3.5-turbo-0125"),
   ModelLimit.from_rate_limits "gpt-3.5-turbo-0301" gpt_3_5_limits (ctxOf "gpt-3.5-turbo-0301"),
   ModelLimit.from_rate_limits "gpt-3.5-turbo-0613" gpt_3_5_limits (ctxOf "gpt-3.5-turbo-0613"),
   ModelLimit.from_rate_limits "gpt-3.5-turbo-1106" gpt_3_5_limits (ctxOf "gpt-3.5-turbo-1106"),
   ModelLimit.from_rate_limits "gpt-3.5-turbo-16k" gpt_3_5_limits (ctxOf "gpt-3.5-turbo-16k"),
   ModelLimit.from_rate_limits "gpt-3.5-turbo-16k-0125" gpt_3_5_limits (ctxOf "gpt-3.5-turbo-16k-0125"),
   ModelLimit.from_rate_limits "gpt-4" gpt_4_limits (ctxOf "gpt-4"),
   ModelLimit.from_rate_limits "gpt-4-0613" gpt_4_limits (ctxOf "gpt-4-0613"),
   ModelLimit.from_rate_limits "gpt-4-turbo-preview" gpt_4_turbo_limits (ctxOf "gpt-4-turbo-preview"),
   ModelLimit.from_rate_limits "gpt-4-0125-preview" gpt_4_turbo_limits (ctxOf "gpt-4-0125-preview"),
   ModelLimit.from_rate_limits "gpt-4-1106-preview" gpt_4_turbo_limits (ctxOf "gpt-4-1106-preview")]

/-- The lookup both entry points perform:
`list(filter(lambda x: x.model_name == model, MODEL_LIMITS))[0]`, after the
emptiness check that raises `ValueError`. -/
def find_model_limit (ctxOf : String → Int) (model : String) :
    Option ModelLimit :=
  (((MODEL_LIMITS ctxOf).filter (fun x => x.model_name == model))).head?

/-! ## Public entry points (run.py lines 183-204)

Each entry point is modelled as the pair of its Python outcome (result list
or raised exception) and the trace of requests handed to the remote
collaborator during the call. -/

/-- `fast_chat_completion_worker(messages, model, tier)` — strategy (b).
Unknown model raises `ValueError` before anything is dispatched; an unknown
tier attribute raises `AttributeError`; otherwise the plan is built by
`make_batches` with the tier's `rpm`/`tpm` and the model's `context_len`
and dispatched through `distribute_batches`. -/
def fast_chat_completion_worker {ρ : Type} (enc : Enc)
    (ctxOf : String → Int) (invoke : Request → ρ) (arrival : List Nat)
    (messages : List Request) (model tier : String) :
    Except PyErr (List (Option ρ)) × List Request :=
  match find_model_limit ctxOf model with
  | none => (.error .valueError, [])
  | some ml =>
    match ml.tiers tier with
    | none => (.error .attributeError, [])
    | some rl =>
      let batches := make_batches enc messages rl.rpm rl.tpm ml.context_len
      (.ok (distribute_batches invoke batches arrival),
       plan_invocations batches)

/-- `fast_chat_completion(messages, model, tier)` — strategy (a).  Unknown
model raises `ValueError`; unknown tier raises `AttributeError`; otherwise
it runs `process_prompts_with_rate_limiting`, which raises `TypeError` at
its first batch before any request is sent, so the invocation trace is
always empty. -/
def fast_chat_completion (ρ : Type) (enc : Enc) (ctxOf : String → Int)
    (messages : List Request) (model tier : String) :
    Except PyErr (List (Option ρ)) × List Request :=
  match find_model_limit ctxOf model with
  | none => (.error .valueError, [])
  | some ml =>
    match ml.tiers tier with
    | none => (.error .attributeError, [])
    | some rl =>
      (process_prompts_with_rate_limiting ρ enc messages rl.rpm rl.tpm
        ml.context_len, [])

/-- The Plan both entry points compute before dispatch: look up the model's
limits, select the tier, and call `make_batches`.  The `model` argument
reaches only the table lookup — `make_batches` estimates costs with the
token counter's fixed default model. -/
def entry_plan (enc : Enc) (ctxOf : String → Int) (messages : List Request)
    (model tier : String) : Except PyErr (List (List (Option Request))) :=
  match find_model_limit ctxOf model with
  | none => .error .valueError
  | some ml =>
    match ml.tiers tier with
    | none => .error .attributeError
    | some rl => .ok (make_batches enc messages rl.rpm rl.tpm ml.context_len)

/-- A constant context-length table for concrete instances. -/
def ctxOf0 : String → Int := fun _ => 8192

example : defaultCost enc0 rA = 10 := by decide
example : defaultCost enc0 rB = 11 := by decide
example : defaultCost enc0 rOver = 40 := by decide
example : defaultCost enc0 rMid = 36 := by decide
example : make_batches enc0 [rOver] 10 1000 30 = [[none, some rOver]] := by decide
example : make_batches enc0 [rA, rB] (-1) (-1) 1000
    = [[], [some rA], [some rB]] := by decide
example : find_model_limit ctxOf0 "gpt-4" =
    some (ModelLimit.from_rate_limits "gpt-4" gpt_4_limits 8192) := rfl
example : (ModelLimit.from_rate_limits "gpt-4" gpt_4_limits 8192).tiers
    "tier_1" = some ⟨500, 10000, 10000⟩ := rfl

/-! ## Structural lemmas about the planner loop -/

/-- Each loop iteration records exactly one entry for the processed request,
plus one extra skip-marker entry when the request is oversized. -/
theorem step_stateLen (enc : Enc) (rpm tpm ctx : Int) (st : BState)
    (m : Request) :
    stateLen (make_batches_step enc rpm tpm ctx st m)
      = stateLen st + (if ctx < defaultCost enc m then 1 else 0) + 1 := by
  simp only [make_batches_step, gt_iff_lt]
  split <;> split <;>
    simp [stateLen, List.sum_append] <;> omega

/-- Running the loop over `msgs` adds one entry per request plus one per
oversized request. -/
theorem foldl_stateLen (enc : Enc) (rpm tpm ctx : Int) :
    ∀ (msgs : List Request) (st : BState),
      stateLen (msgs.foldl (make_batches_step enc rpm tpm ctx) st)
        = stateLen st + msgs.length
          + msgs.countP (fun r => decide (ctx < defaultCost enc r)) := by
  intro msgs
  induction msgs with
  | nil => intro st; simp
  | cons m rest ih =>
    intro st
    simp only [List.foldl_cons, List.countP_cons, List.length_cons]
    rw [ih, step_stateLen]
    by_cases h : ctx < defaultCost enc m <;> simp [h] <;> omega

/-- The flush step publishes exactly the recorded entries. -/
theorem finishBatches_flatten_length (st : BState) :
    (finishBatches st).flatten.length = stateLen st := by
  unfold finishBatches stateLen
  split
  · simp [List.length_flatten, List.sum_append]
  · next h =>
    simp only [ne_eq, not_not] at h
    simp [List.length_flatten, h]

/-- Each loop iteration appends exactly the processed request to the
recorded real requests: the skip marker contributes nothing, and the
request itself is appended in both branches. -/
theorem step_statePlaced (enc : Enc) (rpm tpm ctx : Int) (st : BState)
    (m : Request) :
    statePlaced (make_batches_step enc rpm tpm ctx st m)
      = statePlaced st ++ [m] := by
  simp only [make_batches_step, gt_iff_lt]
  split <;> split <;>
    simp [statePlaced, List.flatten_append, List.filterMap_append]

/-- Running the loop over `msgs` appends exactly `msgs` to the recorded
real requests. -/
theorem foldl_statePlaced (enc : Enc) (rpm tpm ctx : Int) :
    ∀ (msgs : List Request) (st : BState),
      statePlaced (msgs.foldl (make_batches_step enc rpm tpm ctx) st)
        = statePlaced st ++ msgs := by
  intro msgs
  induction msgs with
  | nil => intro st; simp
  | cons m rest ih =>
    intro st
    simp only [List.foldl_cons]
    rw [ih, step_statePlaced, List.append_assoc]
    rfl

/-- The flush step publishes exactly the recorded real requests. -/
theorem finishBatches_placed (st : BState) :
    (finishBatches st).flatten.filterMap id = statePlaced st := by
  unfold finishBatches statePlaced
  split
  · simp [List.flatten_append, List.filterMap_append]
  · next h =>
    simp only [ne_eq, not_not] at h
    simp [h]

/-- After an iteration the batch under construction is never empty: both
branches end it with the processed request. -/
theorem step_current_ne (enc : Enc) (rpm tpm ctx : Int) (st : BState)
    (m : Request) :
    (make_batches_step enc rpm tpm ctx st m).current ≠ [] := by
  simp only [make_batches_step]
  split <;> split <;> simp

/-- The batch under construction stays non-empty across the rest of the
loop once it is non-empty. -/
theorem foldl_current_ne (enc : Enc) (rpm tpm ctx : Int) :
    ∀ (msgs : List Request) (st : BState), st.current ≠ [] →
      (msgs.foldl (make_batches_step enc rpm tpm ctx) st).current ≠ [] := by
  intro msgs
  induction msgs with
  | nil => intro st h; exact h
  | cons m rest ih =>
    intro st _
    simp only [List.foldl_cons]
    exact ih _ (step_current_ne enc rpm tpm ctx st m)

/-- A non-empty input always yields a non-empty plan. -/
theorem make_batches_ne_nil (enc : Enc) (msgs : List Request)
    (rpm tpm ctx : Int) (h : msgs ≠ []) :
    make_batches enc msgs rpm tpm ctx ≠ [] := by
  match msgs, h with
  | m :: rest, _ =>
    unfold make_batches
    rw [List.foldl_cons]
    have hcur := foldl_current_ne enc rpm tpm ctx rest _
      (step_current_ne enc rpm tpm ctx { batches := [], current := [], tokens := 0 } m)
    unfold finishBatches
    rw [if_pos hcur]
    simp

/-! ## Limit invariant of the planner on inputs with no oversized request -/

/-- Token sums add across batch concatenation. -/
theorem batchTokens_append (enc : Enc) (a b : List (Option Request)) :
    batchTokens enc (a ++ b) = batchTokens enc a + batchTokens enc b := by
  simp [batchTokens, List.filterMap_append]

/-- Token sum of a singleton real entry. -/
theorem batchTokens_single (enc : Enc) (m : Request) :
    batchTokens enc [some m] = defaultCost enc m := by
  simp [batchTokens]

/-- When `tpm` is positive, the batch under construction satisfies the
batch limits. -/
theorem BInv.current_good {enc : Enc} {rpm tpm : Int} {st : BState}
    (htpm : 0 < tpm) (h : BInv enc rpm tpm st) :
    goodBatch enc rpm tpm st.current := by
  refine ⟨h.curLen, ?_⟩
  rcases h.curOk with h1 | h1
  · exact Or.inl (h.curTok ▸ h1)
  · match hc : st.current, h1 with
    | [], _ => exact Or.inl (by simp [batchTokens]; omega)
    | [x], _ => exact Or.inr rfl
    | x :: y :: rest, h1 => simp at h1

/-- One loop iteration preserves the invariant when the processed request
fits the context window and both limits are positive. -/
theorem step_BInv (enc : Enc) (rpm tpm ctx : Int) (hrpm : 0 < rpm)
    (htpm : 0 < tpm) (st : BState) (m : Request)
    (hm : defaultCost enc m ≤ ctx) (h : BInv enc rpm tpm st) :
    BInv enc rpm tpm (make_batches_step enc rpm tpm ctx st m) := by
  have hover : ¬ (defaultCost enc m > ctx) := not_lt.2 hm
  simp only [make_batches_step, if_neg hover]
  split
  · next hcond =>
    refine ⟨?_, ?_, ?_, ?_⟩
    · intro b hb
      rcases List.mem_append.1 hb with hb | hb
      · exact h.closed b hb
      · rw [List.mem_singleton.1 hb]
        exact h.current_good htpm
    · simp
      omega
    · simp [batchTokens_single]
    · exact Or.inr (by simp)
  · next hcond =>
    push_neg at hcond
    obtain ⟨hlen, htok⟩ := hcond
    refine ⟨h.closed, ?_, ?_, Or.inl htok⟩
    · simp only [List.length_append, List.length_cons, List.length_nil]
      push_cast
      omega
    · rw [batchTokens_append, batchTokens_single, h.curTok]

/-- The loop preserves the invariant over any suffix of requests that all
fit the context window. -/
theorem foldl_BInv (enc : Enc) (rpm tpm ctx : Int) (hrpm : 0 < rpm)
    (htpm : 0 < tpm) :
    ∀ (msgs : List Request), (∀ r ∈ msgs, defaultCost enc r ≤ ctx) →
      ∀ st : BState, BInv enc rpm tpm st →
        BInv enc rpm tpm (msgs.foldl (make_batches_step enc rpm tpm ctx) st) := by
  intro msgs
  induction msgs with
  | nil => intro _ st h; exact h
  | cons m rest ih =>
    intro hctx st h
    simp only [List.foldl_cons]
    exact ih (fun r hr => hctx r (List.mem_cons_of_mem m hr)) _
      (step_BInv enc rpm tpm ctx hrpm htpm st m
        (hctx m (List.mem_cons_self m rest)) h)

/-- Membership in the flushed plan comes from a closed batch or from the
final current batch. -/
theorem mem_finishBatches {st : BState} {b : List (Option Request)}
    (h : b ∈ finishBatches st) : b ∈ st.batches ∨ b = st.current := by
  unfold finishBatches at h
  split at h
  · rcases List.mem_append.1 h with h | h
    · exact Or.inl h
    · exact Or.inr (List.mem_singleton.1 h)
  · exact Or.inl h

/-! ## Claim theorems -/

/-- C1 (code bug evidence): the flattened plan of `make_batches` has one
entry per input request plus one extra entry per oversized request: the
skip marker is appended and the oversized request itself is still appended
because the loop lacks a `continue`, so the flattened plan is longer than
the input exactly when an oversized request is present, contradicting the
spec's `len(plan_flattened) == len(input)`. -/
theorem make_batches_flatten_length (enc : Enc) (msgs : List Request)
    (rpm tpm ctx : Int) :
    (make_batches enc msgs rpm tpm ctx).flatten.length
      = msgs.length + msgs.countP (fun r => decide (ctx < defaultCost enc r)) := by
  unfold make_batches
  rw [finishBatches_flatten_length, foldl_stateLen]
  simp [stateLen]

/-- C6 (amended): the planner is a total function (it raises nothing) and
places every request — in particular every request that passes the context
check — into exactly one batch position as itself: deleting the skip
markers from the flattened plan returns exactly the input list in order,
so no request is ever discarded. -/
theorem make_batches_places_every_request (enc : Enc) (msgs : List Request)
    (rpm tpm ctx : Int) :
    (make_batches enc msgs rpm tpm ctx).flatten.filterMap id = msgs := by
  unfold make_batches
  rw [finishBatches_placed, foldl_statePlaced]
  simp [statePlaced]

/-- C5 (amended): when both limits are positive and every request fits the
context window, every batch the planner produces has at most `rpm_limit`
members, and its token sum is at most `tpm_limit` unless it is a singleton
whose sole member alone exceeds `tpm_limit`. -/
theorem make_batches_respects_limits (enc : Enc) (msgs : List Request)
    (rpm tpm ctx : Int) (b : List (Option Request)) (hrpm : 0 < rpm)
    (htpm : 0 < tpm) (hctx : ∀ r ∈ msgs, defaultCost enc r ≤ ctx)
    (hb : b ∈ make_batches enc msgs rpm tpm ctx) :
    (b.length : Int) ≤ rpm ∧ (batchTokens enc b ≤ tpm ∨ b.length = 1) := by
  have hinv : BInv enc rpm tpm
      (msgs.foldl (make_batches_step enc rpm tpm ctx)
        { batches := [], current := [], tokens := 0 }) := by
    refine foldl_BInv enc rpm tpm ctx hrpm htpm msgs hctx _ ?_
    refine ⟨by simp, by simp; omega, by simp [batchTokens], Or.inr (by simp)⟩
  unfold make_batches at hb
  rcases mem_finishBatches hb with hmem | hcur
  · exact hinv.closed b hmem
  · rw [hcur]
    exact hinv.current_good htpm

/-- C5 (counterexample): with `rpm_limit = 1 > 0` and `tpm_limit = 20 > 0`,
the plan for a 10-token request followed by a 36-token oversized request
(context 15) is `[[rA, skip], [rMid]]`: the first batch has 2 > rpm members
(the skip marker is appended before the count check) and the second has
token sum 36 > tpm, so not every batch respects the limits. -/
theorem make_batches_limit_violations :
    make_batches enc0 [rA, rMid] 1 20 15 = [[some rA, none], [some rMid]]
    ∧ ¬ ∀ b ∈ make_batches enc0 [rA, rMid] 1 20 15,
        ((b.length : Int) ≤ 1 ∧ batchTokens enc0 b ≤ 20) := by
  decide

/-- C6 (counterexample): the planner can emit an empty batch (closing the
fresh batch before a first request whose cost exceeds `tpm_limit`), and a
closed batch containing a skip marker has 2 members although
`rpm_limit = 1`, so limits are not exceeded only by true singletons. -/
theorem make_batches_emits_empty_batch :
    make_batches enc0 [rB, rOver] 1 10 30
      = [[], [some rB, none], [some rOver]]
    ∧ [] ∈ make_batches enc0 [rB, rOver] 1 10 30
    ∧ (([some rB, none] : List (Option Request)).length : Int) > 1 := by
  decide

/-- C2 (code bug evidence): a single request of cost 40 with context length
30 is recorded as a skip marker AND as a real batch entry, and it appears
among the requests `process_batch` hands to the remote collaborator — the
missing `continue` means the "skipped" request is still dispatched. -/
theorem oversized_request_still_dispatched :
    make_batches enc0 [rOver] 10 1000 30 = [[none, some rOver]]
    ∧ defaultCost enc0 rOver > 30
    ∧ rOver ∈ plan_invocations (make_batches enc0 [rOver] 10 1000 30) := by
  decide

/-- C4 (code bug evidence): with the table's "unlimited" marker `-1` for
both limits, `len(current_batch) >= -1` is always true, so the planner
closes the batch before every request: two cheap requests are forced into
separate singleton batches behind a leading empty batch instead of the
checks being bypassed. -/
theorem unlimited_marker_forces_singleton_batches :
    make_batches enc0 [rA, rB] (-1) (-1) 1000
      = [[], [some rA], [some rB]] := by
  decide

/-- C3 (code bug evidence): whenever the model lookup and tier lookup
succeed and the input is non-empty, `fast_chat_completion` raises
`TypeError` — its loop calls `process_batch` without the required
`result_queue` argument — so no caller ever receives the order-aligned
result list, even when every remote invocation would succeed. -/
theorem fast_chat_completion_always_raises (ρ : Type) (enc : Enc)
    (ctxOf : String → Int) (messages : List Request) (model tier : String)
    (ml : ModelLimit) (rl : RateLimit)
    (h1 : find_model_limit ctxOf model = some ml)
    (h2 : ml.tiers tier = some rl) (h3 : messages ≠ []) :
    fast_chat_completion ρ enc ctxOf messages model tier
      = (.error .typeError, []) := by
  unfold fast_chat_completion
  rw [h1]
  simp only [h2]
  unfold process_prompts_with_rate_limiting
  have hne := make_batches_ne_nil enc messages rl.rpm rl.tpm ml.context_len h3
  rcases hq : make_batches enc messages rl.rpm rl.tpm ml.context_len with _ | ⟨b, bs⟩
  · exact absurd hq hne
  · rfl

/-- Witness for the C3 theorem at a concrete input: one small request to
`"gpt-4"` at `"tier_1"` raises `TypeError`. -/
theorem fast_chat_completion_always_raises_witness :
    fast_chat_completion Unit enc0 ctxOf0 [rA] "gpt-4" "tier_1"
      = (.error .typeError, []) :=
  fast_chat_completion_always_raises Unit enc0 ctxOf0 [rA] "gpt-4" "tier_1"
    (ModelLimit.from_rate_limits "gpt-4" gpt_4_limits 8192)
    ⟨500, 10000, 10000⟩ rfl rfl (by decide)

/-- Indexing a list by `range` of its length reproduces the list. -/
theorem map_range_getD {α β : Type} (f : α → β) (d : α) :
    ∀ l : List α,
      (List.range l.length).map (fun i => f (l.getD i d)) = l.map f := by
  intro l
  induction l with
  | nil => simp
  | cons a as ih =>
    rw [List.length_cons, List.range_succ_eq_map, List.map_cons,
      List.map_map]
    simp only [Function.comp_def, List.getD_cons_succ, List.getD_cons_zero,
      List.map_cons]
    rw [ih]

/-- C7 (counterexample): queue delivery order `[1, 0]` is a permutation of
the two batch indices, yet `distribute_batches` — which drains the result
queue in arrival order with no carried batch index — then returns the
batches' results swapped, not concatenated in original batch order. -/
theorem distribute_batches_arrival_order_matters :
    ([1, 0] : List Nat).Perm (List.range 2)
    ∧ distribute_batches (defaultCost enc0) [[some rA], [some rB]] [1, 0]
        ≠ ([[some rA], [some rB]].map (process_batch (defaultCost enc0))).flatten := by
  decide

/-- C7 (amended): only when the results arrive in exactly the order the
batches were submitted does `distribute_batches` return the per-batch
result lists concatenated in original batch order (and hence the input
order); the source relies on this FIFO assumption instead of carried
indices. -/
theorem distribute_batches_in_order {ρ : Type} (invoke : Request → ρ)
    (batches : List (List (Option Request))) (arrival : List Nat)
    (h : arrival = List.range batches.length) :
    distribute_batches invoke batches arrival
      = (batches.map (process_batch invoke)).flatten := by
  subst h
  unfold distribute_batches
  rw [map_range_getD (process_batch invoke) [] batches]

/-- Witness for the C7 amended theorem: two singleton batches delivered in
submission order come back concatenated in batch order. -/
theorem distribute_batches_in_order_witness :
    distribute_batches (defaultCost enc0) [[some rA], [some rB]] [0, 1]
      = ([[some rA], [some rB]].map (process_batch (defaultCost enc0))).flatten :=
  distribute_batches_in_order (defaultCost enc0) [[some rA], [some rB]]
    [0, 1] (by decide)

/-- C8: for a model absent from `MODEL_LIMITS`, both public entry points
raise the same error class (`ValueError`) and hand zero requests to the
remote collaborator. -/
theorem unknown_model_fails_before_dispatch (ρ : Type) (enc : Enc)
    (ctxOf : String → Int) (invoke : Request → ρ) (arrival : List Nat)
    (messages : List Request) (model tier : String)
    (h : ∀ ml ∈ MODEL_LIMITS ctxOf, ml.model_name ≠ model) :
    fast_chat_completion ρ enc ctxOf messages model tier
        = (.error .valueError, [])
    ∧ fast_chat_completion_worker enc ctxOf invoke arrival messages model tier
        = (.error .valueError, []) := by
  have hf : find_model_limit ctxOf model = none := by
    unfold find_model_limit
    have : (MODEL_LIMITS ctxOf).filter (fun x => x.model_name == model) = [] := by
      rw [List.filter_eq_nil_iff]
      intro a ha
      simpa using h a ha
    rw [this]
    rfl
  constructor
  · unfold fast_chat_completion
    rw [hf]
  · unfold fast_chat_completion_worker
    rw [hf]

/-- Witness for the C8 theorem: the unknown model `"gpt-5"` yields
`ValueError` from both entry points with an empty invocation trace. -/
theorem unknown_model_fails_before_dispatch_witness :
    fast_chat_completion Unit enc0 ctxOf0 [rA] "gpt-5" "tier_1"
        = (.error .valueError, [])
    ∧ fast_chat_completion_worker enc0 ctxOf0 (fun _ => ()) [0] [rA]
        "gpt-5" "tier_1" = (.error .valueError, []) :=
  unknown_model_fails_before_dispatch Unit enc0 ctxOf0 (fun _ => ()) [0]
    [rA] "gpt-5" "tier_1" (by decide)

/-- On the enumerated snapshot models, `count_tokens` and its unrolled core
agree and return the 3/1 counting rules. -/
theorem count_tokens_on_known (enc : Enc) (messages : Request)
    (model : String) (h : model ∈ knownModels) :
    count_tokens enc messages model = .ok (numTokensFrom enc 3 1 messages)
    ∧ count_tokens_known enc messages model
        = .ok (numTokensFrom enc 3 1 messages) := by
  unfold count_tokens count_tokens_known
  rw [if_pos h, if_pos h]
  exact ⟨rfl, rfl⟩

/-- C9: for a model that is not one of the names the code enumerates (the
six-element set and `"gpt-3.5-turbo-0301"`), `count_tokens` raises
`NotImplementedError` when the name contains neither `"gpt-3.5-turbo"` nor
`"gpt-4"`, aliases to the dated snapshot `"gpt-3.5-turbo-0613"` when it
contains `"gpt-3.5-turbo"`, and aliases to `"gpt-4-0613"` when it contains
`"gpt-4"` but not `"gpt-3.5-turbo"`. -/
theorem count_tokens_dispatch (enc : Enc) (messages : Request)
    (model : String) (h1 : model ∉ knownModels)
    (h2 : model ≠ "gpt-3.5-turbo-0301") :
    (strContains model "gpt-3.5-turbo" = false →
      strContains model "gpt-4" = false →
      count_tokens enc messages model = .error .notImplementedError)
    ∧ (strContains model "gpt-3.5-turbo" = true →
      count_tokens enc messages model
        = count_tokens enc messages "gpt-3.5-turbo-0613")
    ∧ (strContains model "gpt-3.5-turbo" = false →
      strContains model "gpt-4" = true →
      count_tokens enc messages model
        = count_tokens enc messages "gpt-4-0613") := by
  have halias1 : count_tokens enc messages "gpt-3.5-turbo-0613"
      = .ok (numTokensFrom enc 3 1 messages) :=
    (count_tokens_on_known enc messages _ (by decide)).1
  have halias2 : count_tokens enc messages "gpt-4-0613"
      = .ok (numTokensFrom enc 3 1 messages) :=
    (count_tokens_on_known enc messages _ (by decide)).1
  have hknown1 : count_tokens_known enc messages "gpt-3.5-turbo-0613"
      = .ok (numTokensFrom enc 3 1 messages) :=
    (count_tokens_on_known enc messages _ (by decide)).2
  have hknown2 : count_tokens_known enc messages "gpt-4-0613"
      = .ok (numTokensFrom enc 3 1 messages) :=
    (count_tokens_on_known enc messages _ (by decide)).2
  refine ⟨fun hc1 hc2 => ?_, fun hc1 => ?_, fun hc1 hc2 => ?_⟩
  · unfold count_tokens
    rw [if_neg h1, if_neg h2]
    simp [hc1, hc2]
  · have hl : count_tokens enc messages model
        = count_tokens_known enc messages "gpt-3.5-turbo-0613" := by
      unfold count_tokens
      rw [if_neg h1, if_neg h2]
      simp [hc1]
    rw [hl, hknown1, halias1]
  · have hl : count_tokens enc messages model
        = count_tokens_known enc messages "gpt-4-0613" := by
      unfold count_tokens
      rw [if_neg h1, if_neg h2]
      simp [hc1, hc2]
    rw [hl, hknown2, halias2]

/-- Witness for the C9 theorem: `"gpt-4o"` is not an enumerated name but
contains `"gpt-4"`, so it is counted by the `"gpt-4-0613"` rules; also the
fully unknown `"claude-3"` raises `NotImplementedError`. -/
theorem count_tokens_dispatch_witness :
    count_tokens enc0 [] "gpt-4o" = count_tokens enc0 [] "gpt-4-0613"
    ∧ count_tokens enc0 [] "claude-3" = .error .notImplementedError :=
  ⟨(count_tokens_dispatch enc0 [] "gpt-4o" (by decide) (by decide)).2.2
      (by decide) (by decide),
    (count_tokens_dispatch enc0 [] "claude-3" (by decide) (by decide)).1
      (by decide) (by decide)⟩

/-- C10: the Plan the entry points build depends on the caller's model only
through the looked-up numeric limits: `make_batches` estimates every cost
with the token counter's fixed default model `"gpt-3.5-turbo-0613"`, so two
calls that differ only in the model name but share `rpm`, `tpm` and
`context_len` produce identical plans. -/
theorem entry_plan_ignores_model_name (enc : Enc) (ctxOf : String → Int)
    (messages : List Request) (m1 m2 tier : String) (ml1 ml2 : ModelLimit)
    (rl1 rl2 : RateLimit)
    (h1 : find_model_limit ctxOf m1 = some ml1)
    (h2 : find_model_limit ctxOf m2 = some ml2)
    (ht1 : ml1.tiers tier = some rl1) (ht2 : ml2.tiers tier = some rl2)
    (hrpm : rl1.rpm = rl2.rpm) (htpm : rl1.tpm = rl2.tpm)
    (hctx : ml1.context_len = ml2.context_len) :
    entry_plan enc ctxOf messages m1 tier
      = entry_plan enc ctxOf messages m2 tier := by
  unfold entry_plan
  rw [h1, h2]
  simp only [ht1, ht2, hrpm, htpm, hctx]

/-- Witness for the C10 theorem: `"gpt-4"` and `"gpt-4-0613"` share
`gpt_4_limits` and (under the constant context table) the same context
length, so a two-request input yields the same plan for both. -/
theorem entry_plan_ignores_model_name_witness :
    entry_plan enc0 ctxOf0 [rA, rB] "gpt-4" "tier_1"
      = entry_plan enc0 ctxOf0 [rA, rB] "gpt-4-0613" "tier_1" :=
  entry_plan_ignores_model_name enc0 ctxOf0 [rA, rB] "gpt-4" "gpt-4-0613"
    "tier_1" (ModelLimit.from_rate_limits "gpt-4" gpt_4_limits 8192)
    (ModelLimit.from_rate_limits "gpt-4-0613" gpt_4_limits 8192)
    ⟨500, 10000, 10000⟩ ⟨500, 10000, 10000⟩ rfl rfl rfl rfl rfl rfl rfl

/-- Witness for the C5 amended theorem: with positive limits 2/30, context
100 and two small requests, the single produced batch is checked against
both limits. -/
theorem make_batches_respects_limits_witness :
    ((([some rA, some rB] : List (Option Request)).length : Int) ≤ 2
      ∧ (batchTokens enc0 [some rA, some rB] ≤ 30
        ∨ ([some rA, some rB] : List (Option Request)).length = 1)) :=
  make_batches_respects_limits enc0 [rA, rB] 2 30 100 [some rA, some rB]
    (by decide) (by decide) (by decide) (by decide)
